import Mathlib

/-!
Verification development for the document_Scanner backend service layer
(backend/app/services.py with the record shapes of backend/app/schemas.py).

Modelling conventions of this shallow embedding:
  - Python strings are Lean `String`; the string operations the code uses
    (strip, lower, split, substring membership) are modelled on their ASCII
    fragment, which is the fragment the repository exercises.
  - Python floats are modelled as exact rationals; the scoring pipeline only
    divides small integers, clamps and rounds, and every property stated
    below (zeroness, ordering, clamp range) is exact under both semantics.
  - Wall-clock timestamps and freshly drawn uuid4 identifiers are effects of
    the environment; they enter the model as explicit arguments.
  - The persisted store is modelled at the dictionary level: an association
    list from document_id to the stored entry, with Python dict update
    semantics. The dump/validate round-trip of one record through the JSON
    file is the identity on the logical record (dates travel as their ISO
    rendering, URLs as their serialized text). The file is written with
    sorted keys, so enumeration order of a reloaded store is key-sorted; no
    property below depends on enumeration order.
  - The parsing layer of the store file (json.loads, a Python standard
    library function outside this repository) is modelled by its observable
    outcome, see `LoadOutcome`.
-/

/-! ## Python string primitives (ASCII fragment) -/

/-- ASCII whitespace as recognised by the Python str.strip and str.split
used in services.py (space, tab, newline, carriage return, vertical tab,
form feed). -/
def pySpace (c : Char) : Bool :=
  decide (c.toNat = 32 ∨ c.toNat = 9 ∨ c.toNat = 10 ∨ c.toNat = 13 ∨
    c.toNat = 11 ∨ c.toNat = 12)

/-- ASCII case lowering of one character, the fragment of Python str.lower
the repository exercises. -/
def lowerChar (c : Char) : Char :=
  if 65 ≤ c.toNat ∧ c.toNat ≤ 90 then Char.ofNat (c.toNat + 32) else c

/-- Python str.lower on a string. -/
def pyLower (s : String) : String := String.mk (s.data.map lowerChar)

/-- Python str.strip with no argument: drop leading and trailing
whitespace. -/
def pyStrip (s : String) : String :=
  String.mk (((s.data.dropWhile pySpace).reverse.dropWhile pySpace).reverse)

/-- Python str.split with no argument: the maximal runs of non-whitespace
characters, in order; never yields an empty token. -/
def pySplit (s : String) : List String :=
  ((List.splitOnP pySpace s.data).filter (fun t => t ≠ [])).map String.mk

/-- Whether the first list is an initial segment of the second. -/
def leadsWith : List Char → List Char → Bool
  | [], _ => true
  | _ :: _, [] => false
  | a :: as, b :: bs => a = b && leadsWith as bs

/-- Whether the first list occurs contiguously inside the second. -/
def occursIn (needle : List Char) : List Char → Bool
  | [] => needle.isEmpty
  | b :: bs => leadsWith needle (b :: bs) || occursIn needle bs

/-- Python substring membership needle in hay on strings. -/
def pyIn (needle hay : String) : Bool := occursIn needle.data hay.data

/-- Python str of an optional string-rendered field of the serialized
record: None prints as the text None. -/
def pyStrOpt : Option String → String
  | none => "None"
  | some s => s

/-! ## Data model (backend/app/schemas.py) -/

/-- schemas.DocumentIngestionRequest together with its DocumentMetadata
base: the logical document record. `reporting_period` holds the ISO
YYYY-MM-DD rendering of the optional date; `content_url` the serialized
optional URL. The declared schema defaults (language "en", source "upload",
version 1) are applied by validation before a record reaches the service
layer, so the fields here are post-default. -/
structure Document where
  document_id : Option String
  tenant_id : String
  issuer : String
  product : String
  document_type : String
  reporting_period : Option String
  language : String
  source : String
  version : Nat
  filename : String
  content_url : Option String
deriving DecidableEq

/-- Field lookup by name on the serialized record, as the filter stage
performs it: str applied to document.model_dump(mode="json").get(key, "").
Every schema field is present in the dump, optional fields as null, which
str renders as the text None; a key that is no field of the schema falls to
the dict.get default and yields the empty string. -/
def dumpGet (d : Document) (key : String) : String :=
  if key = "document_id" then pyStrOpt d.document_id
  else if key = "tenant_id" then d.tenant_id
  else if key = "issuer" then d.issuer
  else if key = "product" then d.product
  else if key = "document_type" then d.document_type
  else if key = "reporting_period" then pyStrOpt d.reporting_period
  else if key = "language" then d.language
  else if key = "source" then d.source
  else if key = "version" then toString d.version
  else if key = "filename" then d.filename
  else if key = "content_url" then pyStrOpt d.content_url
  else ""

/-- Python truthiness test `document.document_id or "unknown"`: None and
the empty string are falsy. -/
def orUnknown : Option String → String
  | none => "unknown"
  | some s => if s = "" then "unknown" else s

/-- schemas.DocumentIngestionResponse. -/
structure DocumentIngestionResponse where
  document_id : String
  status : String
  received_at : String
deriving DecidableEq

/-! ## Registry (services.DocumentRegistry) -/

/-- One value of the persisted mapping: the created_at wrapper around the
serialized document. -/
structure StoredDoc where
  created_at : String
  document : Document
deriving DecidableEq

/-- The parsed store: the mapping from document_id to stored entry, as an
association list with Python dict semantics (an existing key keeps its
slot and gets the new value, a new key is appended). -/
abbrev Store := List (String × StoredDoc)

namespace DocumentRegistry

/-- Python dict update data[k] = v. -/
def storeSet : Store → String → StoredDoc → Store
  | [], k, v => [(k, v)]
  | (k0, v0) :: rest, k, v =>
      if k0 = k then (k, v) :: rest else (k0, v0) :: storeSet rest k v

/-- Python dict lookup data.get(k). -/
def storeGet (s : Store) (k : String) : Option StoredDoc :=
  (s.find? (fun kv => kv.1 == k)).map (fun kv => kv.2)

/-- The id resolution of register: `payload.document_id or str(uuid4())`,
where Python or falls through on the falsy values None and the empty
string. The freshly drawn uuid is an argument. -/
def resolveId (docId : Option String) (freshId : String) : String :=
  match docId with
  | none => freshId
  | some s => if s = "" then freshId else s

/-- services.DocumentRegistry.register: resolve the id, stamp the record
with it, store the created_at wrapper under the id (replacing any prior
value for the same id entirely), and answer with the resolved id, the fixed
status and the timestamp. -/
def register (store : Store) (payload : Document) (freshId now : String) :
    Store × DocumentIngestionResponse :=
  let document_id := resolveId payload.document_id freshId
  let stamped : Document := { payload with document_id := some document_id }
  (storeSet store document_id { created_at := now, document := stamped },
   { document_id := document_id, status := "received", received_at := now })

/-- services.DocumentRegistry.get: the stored record exactly as last
written, without the created_at wrapper; the model_dump and model_validate
round-trip is the identity on the logical record. -/
def get (store : Store) (document_id : String) : Option Document :=
  match storeGet store document_id with
  | none => none
  | some entry => some entry.document

/-- services.DocumentRegistry.list: every stored record, store order. -/
def list (store : Store) : List Document :=
  store.map (fun kv => kv.2.document)

end DocumentRegistry

/-! ## Query engine (services.QueryEngine) -/

/-- schemas.QueryRequest. The schema bounds max_results to the range 1..20;
theorems take that bound as a hypothesis where they use it. -/
structure QueryRequest where
  query : String
  document_filters : Option (List (String × String))
  max_results : Nat
deriving DecidableEq

/-- schemas.QueryResultSnippet. Scores are exact rationals, see the header. -/
structure QueryResultSnippet where
  document_id : String
  section_heading : Option String
  page : Option Nat
  excerpt : String
  score : ℚ
deriving DecidableEq

/-- schemas.QueryResponse. The latency_ms field, a wall-clock measurement
floored at one millisecond, is not part of the model; no claim concerns
it. -/
structure QueryResponse where
  answer : String
  citations : List QueryResultSnippet
deriving DecidableEq

namespace QueryEngine

/-- The conjunctive test one document must pass in
services.QueryEngine._filter_documents: for every filter item, the
serialized field named by the key, lowercased, equals the lowercased filter
value. -/
def passes (filters : List (String × String)) (d : Document) : Bool :=
  filters.all (fun kv => pyLower (dumpGet d kv.1) == pyLower kv.2)

/-- services.QueryEngine._filter_documents: a missing or empty filters
mapping is falsy and keeps every document; otherwise keep the documents
passing every filter item. -/
def filterDocuments (documents : List Document)
    (filters : Option (List (String × String))) : List Document :=
  match filters with
  | none => documents
  | some fs => if fs = [] then documents else documents.filter (passes fs)

/-- The lowercase searchable string of one document: issuer, product,
document_type, language, source, filename and the ISO reporting period,
space-joined; the filter(None, ...) of the source drops the absent
reporting period and any empty field before joining. -/
def searchable (d : Document) : String :=
  pyLower (String.intercalate " "
    (([some d.issuer, some d.product, some d.document_type, some d.language,
       some d.source, some d.filename, d.reporting_period].filterMap id).filter
      (fun s => s ≠ "")))

/-- payload.query.strip().lower() -/
def normQuery (q : String) : String := pyLower (pyStrip q)

/-- The token-overlap score of the normalized query against one document:
tokens found as substrings of the searchable string, over
max(token count, 1). -/
def rawScore (query : String) (d : Document) : ℚ :=
  (((pySplit query).filter (fun t => pyIn t (searchable d))).length : ℚ) /
    (max (pySplit query).length 1 : ℚ)

/-- One iteration of the matching loop of services.QueryEngine.answer: the
(document, clamped score) pair appended when the document qualifies, none
when it is excluded. An empty query gives score zero; the document is kept
when the query is empty, the whole query occurs in the searchable string,
or the score is positive; the kept score is clamped from below by 0.1 for
the empty query and 0.05 otherwise, and from above by 1. -/
def scoreEntry (query : String) (d : Document) : Option (Document × ℚ) :=
  let score : ℚ := if query = "" then 0 else rawScore query d
  if query = "" || pyIn query (searchable d) || decide (0 < score) then
    some (d, min 1 (max score (if query = "" then 1/10 else 1/20)))
  else none

/-- The match list of services.QueryEngine.answer before sorting: the
filtered documents, scored in order. -/
def matchesOf (documents : List Document) (req : QueryRequest) :
    List (Document × ℚ) :=
  (filterDocuments documents req.document_filters).filterMap
    (scoreEntry (normQuery req.query))

/-- matches.sort(key=..., reverse=True): descending by score. CPython sorts
stably; mergeSort under this comparison is the same stable order. -/
def ranked (documents : List Document) (req : QueryRequest) :
    List (Document × ℚ) :=
  (matchesOf documents req).mergeSort (fun a b => decide (b.2 ≤ a.2))

/-- Python round(x, 2): the nearest multiple of one hundredth, modelled on
the exact rational with Mathlib round. CPython rounds the underlying double
and breaks exact midpoints towards even; the two agree except at midpoints,
and every property stated below uses only monotonicity and range of the
rounding, shared by both. -/
def round2 (q : ℚ) : ℚ := (round (q * 100) : ℚ) / 100

/-- The citation snippet built for one match. -/
def snippetOf (m : Document × ℚ) : QueryResultSnippet :=
  { document_id := orUnknown m.1.document_id
  , section_heading := some "Metadata"
  , page := none
  , excerpt := "Issuer: " ++ m.1.issuer ++ ". Product: " ++ m.1.product ++
      ". Filename: " ++ m.1.filename ++ "."
  , score := round2 m.2 }

/-- The bullet line built for one match. -/
def bulletFor (m : Document × ℚ) : String :=
  "- " ++ m.1.product ++ " (" ++ m.1.document_type ++ ") for " ++
    (match m.1.reporting_period with
     | some p => p
     | none => "unspecified period")

/-- The fixed answer text when no document qualifies. -/
def noMatchAnswer : String :=
  "No documents matched your query. Try adjusting the query text or filters once documents have been processed."

/-- The header line of the answer text when documents qualify. -/
def headerAnswer : String :=
  "Found the following documents matching your request:"

/-- services.QueryEngine.answer: filter, score, sort descending, truncate
to max_results, then either the fixed no-match response or the summary with
one citation per retained match. -/
def answer (documents : List Document) (req : QueryRequest) : QueryResponse :=
  let top := (ranked documents req).take req.max_results
  if top = [] then
    { answer := noMatchAnswer, citations := [] }
  else
    { answer := String.intercalate "\n" (headerAnswer :: top.map bulletFor)
    , citations := top.map snippetOf }

end QueryEngine

/-! ## Compliance evaluator (services.ComplianceService) -/

/-- schemas.ComplianceAlert. -/
structure ComplianceAlert where
  alert_id : String
  document_id : String
  rule_id : String
  severity : String
  status : String
  summary : String
  created_at : String
  assignee : Option String
deriving DecidableEq

/-- schemas.ComplianceAlertList. -/
structure ComplianceAlertList where
  alerts : List ComplianceAlert
  total : Nat
deriving DecidableEq

namespace ComplianceService

/-- The fixed allow-set of language codes. -/
def verifiedLanguages : List String := ["en", "es", "fr", "de", "it", "zh"]

/-- The alerts one document contributes in services.list_alerts, in the
order the loop appends them: one missing_reporting_period alert when the
reporting period is absent, then one unverified_language alert when the
lowercased language is outside the allow-set. The alert id interpolates the
optional document id with str, the document_id field falls back to
"unknown" on a falsy id. -/
def alertsFor (now : String) (d : Document) : List ComplianceAlert :=
  (if d.reporting_period = none then
    [{ alert_id := pyStrOpt d.document_id ++ "-missing-reporting-period"
     , document_id := orUnknown d.document_id
     , rule_id := "missing_reporting_period"
     , severity := "medium"
     , status := "new"
     , summary := "Document metadata is missing a reporting period."
     , created_at := now
     , assignee := none }]
   else []) ++
  (if pyLower d.language ∈ verifiedLanguages then []
   else
    [{ alert_id := pyStrOpt d.document_id ++ "-unverified-language"
     , document_id := orUnknown d.document_id
     , rule_id := "unverified_language"
     , severity := "low"
     , status := "new"
     , summary := "Language code is outside the verified set; ensure translated disclosures are available."
     , created_at := now
     , assignee := none }])

/-- services.ComplianceService.list_alerts over the registry contents, at
one evaluation instant. -/
def list_alerts (now : String) (documents : List Document) :
    ComplianceAlertList :=
  let alerts := documents.flatMap (alertsFor now)
  { alerts := alerts, total := alerts.length }

end ComplianceService

/-! ## Store file parsing layer (services.DocumentRegistry._load) -/

/-- A parsed JSON value as json.loads returns it into the registry. -/
inductive PyValue where
  | obj : List (String × PyValue) → PyValue
  | arr : List PyValue → PyValue
  | str : String → PyValue
  | num : Int → PyValue
  | bool : Bool → PyValue
  | null : PyValue

/-- The outcome the registry observes from json.loads (a Python standard
library function, outside this repository) on the raw file text: either a
JSONDecodeError or a parsed value. For instance the text "[]" parses to
value (arr []) and a truncated text such as "not json" to decodeError. -/
inductive LoadOutcome where
  | decodeError
  | value : PyValue → LoadOutcome

/-- The Python exceptions the dictionary accesses below can raise. -/
inductive PyExcept where
  | attributeError
  | typeError

/-- services.DocumentRegistry._load given the raw file text and the
json.loads outcome on it: blank text and a decode error both give the empty
mapping; any successfully parsed value is returned as is. -/
def loadStore (raw : String) (parsed : LoadOutcome) : PyValue :=
  if pyStrip raw = "" then .obj []
  else
    match parsed with
    | .decodeError => .obj []
    | .value v => v

/-- Python dict update on parsed values, keeping the slot of an existing
key. -/
def pyAssocSet : List (String × PyValue) → String → PyValue →
    List (String × PyValue)
  | [], k, v => [(k, v)]
  | (k0, v0) :: rest, k, v =>
      if k0 = k then (k, v) :: rest else (k0, v0) :: pyAssocSet rest k v

/-- data.get(key) on the loaded value, as get performs it: Python raises
AttributeError unless the value is a dict. -/
def pyDictGet (v : PyValue) (key : String) : Except PyExcept (Option PyValue) :=
  match v with
  | .obj kvs => .ok ((kvs.find? (fun kv => kv.1 == key)).map (fun kv => kv.2))
  | _ => .error .attributeError

/-- data[key] = val on the loaded value, as register performs it: Python
raises TypeError unless the value is a dict. -/
def pyDictSet (v : PyValue) (key : String) (val : PyValue) :
    Except PyExcept PyValue :=
  match v with
  | .obj kvs => .ok (.obj (pyAssocSet kvs key val))
  | _ => .error .typeError

/-- data.values() on the loaded value, as list performs it: Python raises
AttributeError unless the value is a dict. -/
def pyDictValues (v : PyValue) : Except PyExcept (List PyValue) :=
  match v with
  | .obj kvs => .ok (kvs.map (fun kv => kv.2))
  | _ => .error .attributeError

/-! ## Specification-side restatements used by refinement claims -/

/-- The scoring rule exactly as the specification sentence behind claim C2
states it, written beside `QueryEngine.scoreEntry` for comparison: an empty
query qualifies every document at score 0.1; a non-empty query scores the
fraction of its tokens occurring in the searchable string over the token
count, qualifies the document iff the whole query occurs in the searchable
string or the fraction is positive, and reports the fraction clamped to the
range 0.05 to 1. -/
def specScoreRule (query : String) (d : Document) : Option (Document × ℚ) :=
  if query = "" then some (d, 1/10)
  else
    let toks := pySplit query
    let raw : ℚ :=
      ((toks.filter (fun t => pyIn t (QueryEngine.searchable d))).length : ℚ) /
        (toks.length : ℚ)
    if pyIn query (QueryEngine.searchable d) || decide (0 < raw) then
      some (d, min 1 (max raw (1/20)))
    else none

/-- Claim C1 exactly as stated: fetching the record back after registration
yields the input record, with the id assigned only when the input id was
absent and kept otherwise (the internal created_at wrapper is not part of
the returned record; schema defaults are already applied in the model, see
`Document`). -/
def roundTripAsStated (store : Store) (payload : Document)
    (freshId now : String) : Prop :=
  DocumentRegistry.get (DocumentRegistry.register store payload freshId now).1
      (DocumentRegistry.register store payload freshId now).2.document_id =
    some (match payload.document_id with
          | none => { payload with document_id := some freshId }
          | some _ => payload)

/-! ## Sample inputs used by witnesses and counterexamples -/

/-- A sample record with every schema default applied and no reporting
period. -/
def sampleDoc : Document :=
  { document_id := some "doc-1"
  , tenant_id := "t1"
  , issuer := "Acme"
  , product := "Fund A"
  , document_type := "factsheet"
  , reporting_period := none
  , language := "en"
  , source := "upload"
  , version := 1
  , filename := "a.pdf"
  , content_url := none }

/-- A sample record carrying the empty string as its document id, which the
schema admits (the field is an optional unconstrained string). -/
def emptyIdDoc : Document :=
  { sampleDoc with document_id := some "" }

/-- A second sample record, with a reporting period and another product. -/
def sampleDoc2 : Document :=
  { document_id := some "doc-2"
  , tenant_id := "t1"
  , issuer := "Beta Partners"
  , product := "Fund Z"
  , document_type := "report"
  , reporting_period := some "2024-03-31"
  , language := "fr"
  , source := "api"
  , version := 2
  , filename := "z.pdf"
  , content_url := none }


/-! ## Helper lemmas on the string primitives -/

theorem pySpace_lowerChar (c : Char) : pySpace (lowerChar c) = pySpace c := by
  unfold lowerChar
  by_cases h : 65 ≤ c.toNat ∧ c.toNat ≤ 90
  · rw [if_pos h]
    have h1 : pySpace c = false := by
      simp only [pySpace, decide_eq_false_iff_not]
      omega
    have h2 : pySpace (Char.ofNat (c.toNat + 32)) = false := by
      obtain ⟨ha, hb⟩ := h
      set m := c.toNat + 32 with hm
      have hm1 : 97 ≤ m := by omega
      have hm2 : m ≤ 122 := by omega
      interval_cases m <;> decide
    rw [h1, h2]
  · rw [if_neg h]

theorem pyStrip_eq_empty (s : String)
    (h : ∀ c ∈ s.data, pySpace c = true) : pyStrip s = "" := by
  unfold pyStrip
  rw [List.dropWhile_eq_nil_iff.mpr h]
  rfl

theorem exists_nonspace_of_pyStrip_ne (s : String) (h : pyStrip s ≠ "") :
    ∃ c ∈ (pyStrip s).data, pySpace c = false := by
  by_cases hB :
      (s.data.dropWhile pySpace).reverse.dropWhile pySpace = []
  · exact absurd (by unfold pyStrip; rw [hB]; rfl) h
  · refine ⟨((s.data.dropWhile pySpace).reverse.dropWhile pySpace).head hB,
      ?_, List.head_dropWhile_not pySpace _ hB⟩
    show _ ∈ (((s.data.dropWhile pySpace).reverse.dropWhile pySpace).reverse : List Char)
    exact List.mem_reverse.mpr (List.head_mem hB)

theorem splitOnP_ne_nil (p : Char → Bool) (l : List Char) :
    List.splitOnP p l ≠ [] := by
  induction l with
  | nil => simp [List.splitOnP_nil]
  | cons a l ih =>
    rw [List.splitOnP_cons]
    by_cases hp : p a = true
    · simp [hp]
    · rw [if_neg hp]
      cases hsp : List.splitOnP p l with
      | nil => exact absurd hsp ih
      | cons x xs => simp [List.modifyHead]

theorem all_space_of_splitOnP_all_nil (p : Char → Bool) (l : List Char)
    (h : ∀ t ∈ List.splitOnP p l, t = []) : ∀ c ∈ l, p c = true := by
  induction l with
  | nil => simp
  | cons a l ih =>
    by_cases hp : p a = true
    · intro c hc
      rcases List.mem_cons.mp hc with hc | hc
      · rwa [hc]
      · refine ih ?_ c hc
        intro t ht
        refine h t ?_
        rw [List.splitOnP_cons, if_pos hp]
        exact List.mem_cons_of_mem _ ht
    · exfalso
      cases hsp : List.splitOnP p l with
      | nil => exact splitOnP_ne_nil p l hsp
      | cons x xs =>
        have hmem : (a :: x) ∈ List.splitOnP p (a :: l) := by
          rw [List.splitOnP_cons, if_neg hp, hsp]
          simp [List.modifyHead]
        exact List.cons_ne_nil a x (h _ hmem)

theorem pySplit_ne_nil (s : String)
    (h : ∃ c ∈ s.data, pySpace c = false) : pySplit s ≠ [] := by
  intro hnil
  obtain ⟨c, hc, hcs⟩ := h
  unfold pySplit at hnil
  rw [List.map_eq_nil_iff, List.filter_eq_nil_iff] at hnil
  have : ∀ t ∈ List.splitOnP pySpace s.data, t = [] := by
    intro t ht
    by_contra hne
    exact hnil t ht (by simpa using hne)
  have := all_space_of_splitOnP_all_nil pySpace s.data this c hc
  rw [this] at hcs
  exact absurd hcs (by simp)

theorem normQuery_tokens_ne_nil (q : String)
    (h : QueryEngine.normQuery q ≠ "") :
    pySplit (QueryEngine.normQuery q) ≠ [] := by
  have hstrip : pyStrip q ≠ "" := by
    intro he
    refine h ?_
    unfold QueryEngine.normQuery
    rw [he]
    rfl
  obtain ⟨c, hc, hcs⟩ := exists_nonspace_of_pyStrip_ne q hstrip
  refine pySplit_ne_nil _ ⟨lowerChar c, ?_, ?_⟩
  · show lowerChar c ∈ ((pyStrip q).data.map lowerChar : List Char)
    exact List.mem_map_of_mem lowerChar hc
  · rw [pySpace_lowerChar, hcs]

/-! ## Helper lemmas on the registry and the query engine -/

theorem storeGet_storeSet_self : ∀ (s : Store) (k : String) (v : StoredDoc),
    DocumentRegistry.storeGet (DocumentRegistry.storeSet s k v) k = some v
  | [], k, v => by
      simp [DocumentRegistry.storeSet, DocumentRegistry.storeGet]
  | (k0, v0) :: rest, k, v => by
      by_cases h : k0 = k
      · simp [DocumentRegistry.storeSet, h, DocumentRegistry.storeGet]
      · have ih := storeGet_storeSet_self rest k v
        simp only [DocumentRegistry.storeSet, if_neg h]
        simpa [DocumentRegistry.storeGet, List.find?_cons, h] using ih

theorem scoreEntry_empty (d : Document) :
    QueryEngine.scoreEntry "" d = some (d, 1/10) := by
  simp [QueryEngine.scoreEntry]
  norm_num

theorem scoreEntry_bounds (query : String) (d : Document) (m : Document × ℚ)
    (h : QueryEngine.scoreEntry query d = some m) :
    1/20 ≤ m.2 ∧ m.2 ≤ 1 := by
  by_cases hq : query = ""
  · subst hq
    rw [scoreEntry_empty d] at h
    obtain rfl := Option.some_inj.mp h
    constructor <;> norm_num
  · simp only [QueryEngine.scoreEntry, hq, decide_False, Bool.false_or,
      if_false, ite_false] at h
    split at h
    · obtain rfl := Option.some_inj.mp h
      constructor
      · exact le_min (by norm_num) (le_trans (by norm_num) (le_max_right _ _))
      · exact min_le_left _ _
    · exact absurd h (by simp)

theorem round2_mono {a b : ℚ} (h : a ≤ b) :
    QueryEngine.round2 a ≤ QueryEngine.round2 b := by
  unfold QueryEngine.round2
  have h1 : round (a * 100) ≤ round (b * 100) := by
    rw [round_eq, round_eq]
    exact Int.floor_le_floor (by linarith)
  have h2 : ((round (a * 100) : ℤ) : ℚ) ≤ ((round (b * 100) : ℤ) : ℚ) := by
    exact_mod_cast h1
  linarith

theorem round2_low : QueryEngine.round2 (1/20) = 1/20 := by
  unfold QueryEngine.round2
  have h : ((1:ℚ)/20) * 100 = ((5:ℤ) : ℚ) := by norm_num
  rw [h, round_intCast]
  norm_num

theorem round2_one : QueryEngine.round2 1 = 1 := by
  unfold QueryEngine.round2
  have h : ((1:ℚ)) * 100 = ((100:ℤ) : ℚ) := by norm_num
  rw [h, round_intCast]
  norm_num

theorem answer_citations (documents : List Document) (req : QueryRequest) :
    (QueryEngine.answer documents req).citations =
      ((QueryEngine.ranked documents req).take req.max_results).map
        QueryEngine.snippetOf := by
  unfold QueryEngine.answer
  by_cases h : (QueryEngine.ranked documents req).take req.max_results = []
  · simp [h]
  · simp [h]

/-! ## Claims -/

/-- C1, counterexample: at a record whose document_id is the empty string,
register draws a fresh id although the incoming id was present (Python or
falls through on the falsy empty string), so the fetched record differs
from the input in a field the claim as stated preserves. -/
theorem spec2proof_C1_cex :
    ¬ roundTripAsStated [] emptyIdDoc
        "11111111-1111-1111-1111-111111111111" "2026-01-01T00:00:00" := by
  unfold roundTripAsStated
  decide

/-- C1, amended: registering a record and then fetching by the returned id
yields a record equal to the input in all fields except that document_id is
the resolved id, a fresh id exactly when the incoming id was absent or the
empty string and the incoming id otherwise; the internal created_at
timestamp is not part of the returned record, and the declared schema
defaults are already applied on the model record. -/
theorem spec2proof_C1 (store : Store) (payload : Document)
    (freshId now : String) :
    DocumentRegistry.get
        (DocumentRegistry.register store payload freshId now).1
        (DocumentRegistry.register store payload freshId now).2.document_id =
      some { payload with document_id := some (DocumentRegistry.resolveId payload.document_id freshId) }
    ∧ (∀ s, payload.document_id = some s → s ≠ "" →
         DocumentRegistry.resolveId payload.document_id freshId = s)
    ∧ ((payload.document_id = none ∨ payload.document_id = some "") →
         DocumentRegistry.resolveId payload.document_id freshId = freshId) := by
  refine ⟨?_, ?_, ?_⟩
  · simp [DocumentRegistry.register, DocumentRegistry.get,
      storeGet_storeSet_self]
  · intro s hs hne
    rw [hs]
    unfold DocumentRegistry.resolveId
    simp [hne]
  · rintro (h | h) <;> rw [h] <;> rfl

/-- C5: registering a record whose document_id is already present in the
store replaces the prior stored value for that id entirely: get afterwards
returns exactly the new payload (stamped with the id), and the stored entry
is the new created_at wrapper, independent of the old value. -/
theorem spec2proof_C5 (store : Store) (old : StoredDoc) (payload : Document)
    (id freshId now : String)
    (_h1 : DocumentRegistry.storeGet store id = some old)
    (h2 : payload.document_id = some id) (h3 : id ≠ "") :
    DocumentRegistry.get
        (DocumentRegistry.register store payload freshId now).1 id =
      some { payload with document_id := some id }
    ∧ DocumentRegistry.storeGet
        (DocumentRegistry.register store payload freshId now).1 id =
      some { created_at := now
           , document := { payload with document_id := some id } } := by
  have hid : DocumentRegistry.resolveId payload.document_id freshId = id := by
    rw [h2]
    unfold DocumentRegistry.resolveId
    simp [h3]
  constructor
  · simp [DocumentRegistry.register, DocumentRegistry.get, hid,
      storeGet_storeSet_self]
  · simp [DocumentRegistry.register, hid, storeGet_storeSet_self]

/-- C5 witness at a concrete store: one stored record under doc-1 is fully
overwritten by re-registering a different record under the same id. -/
theorem spec2proof_C5_witness :
    DocumentRegistry.get
        (DocumentRegistry.register
          [("doc-1", { created_at := "t0", document := sampleDoc })]
          { sampleDoc2 with document_id := some "doc-1" } "f-1" "t1").1
        "doc-1" =
      some { sampleDoc2 with document_id := some "doc-1" }
    ∧ DocumentRegistry.storeGet
        (DocumentRegistry.register
          [("doc-1", { created_at := "t0", document := sampleDoc })]
          { sampleDoc2 with document_id := some "doc-1" } "f-1" "t1").1
        "doc-1" =
      some { created_at := "t1"
           , document := { sampleDoc2 with document_id := some "doc-1" } } :=
  spec2proof_C5 [("doc-1", { created_at := "t0", document := sampleDoc })]
    { created_at := "t0", document := sampleDoc }
    { sampleDoc2 with document_id := some "doc-1" }
    "doc-1" "f-1" "t1" (by decide) (by decide) (by decide)

/-- C3: with a non-empty filters mapping, a document passes the filter
stage iff it is among the inputs and, for every filter item, the serialized
field named by the key (the empty string for a key that is no field of the
schema) equals the filter value case-insensitively; filters are conjunctive
and exact-match. -/
theorem spec2proof_C3 (fs : List (String × String)) (documents : List Document)
    (d : Document) (h : fs ≠ []) :
    d ∈ QueryEngine.filterDocuments documents (some fs) ↔
      d ∈ documents ∧ ∀ kv ∈ fs, pyLower (dumpGet d kv.1) = pyLower kv.2 := by
  rw [show QueryEngine.filterDocuments documents (some fs) =
        if fs = [] then documents
        else documents.filter (QueryEngine.passes fs) from rfl]
  rw [if_neg h, List.mem_filter]
  unfold QueryEngine.passes
  rw [List.all_eq_true]
  constructor
  · rintro ⟨h1, h2⟩
    exact ⟨h1, fun kv hkv => by simpa using h2 kv hkv⟩
  · rintro ⟨h1, h2⟩
    exact ⟨h1, fun kv hkv => by simpa using h2 kv hkv⟩

/-- C3 witness at one concrete filter: a language filter differing only in
case keeps the sample document. -/
theorem spec2proof_C3_witness :
    ([("language", "EN")] : List (String × String)) ≠ [] ∧
    (sampleDoc ∈ QueryEngine.filterDocuments [sampleDoc]
        (some [("language", "EN")]) ↔
      sampleDoc ∈ [sampleDoc] ∧
        ∀ kv ∈ ([("language", "EN")] : List (String × String)),
          pyLower (dumpGet sampleDoc kv.1) = pyLower kv.2) :=
  ⟨by decide, spec2proof_C3 [("language", "EN")] [sampleDoc] sampleDoc
    (by decide)⟩

/-- C7: when no document qualifies, the response is exactly the fixed
no-match message with an empty citation list. -/
theorem spec2proof_C7 (documents : List Document) (req : QueryRequest)
    (h : QueryEngine.matchesOf documents req = []) :
    QueryEngine.answer documents req =
      { answer := QueryEngine.noMatchAnswer, citations := [] } := by
  unfold QueryEngine.answer QueryEngine.ranked
  rw [h]
  simp

/-- C7 witness: on the empty store no document qualifies and the response
is the fixed no-match message with no citations. -/
theorem spec2proof_C7_witness :
    QueryEngine.matchesOf []
        { query := "zzz", document_filters := none, max_results := 5 } = []
    ∧ QueryEngine.answer []
        { query := "zzz", document_filters := none, max_results := 5 } =
      { answer := QueryEngine.noMatchAnswer, citations := [] } :=
  ⟨rfl, spec2proof_C7 []
    { query := "zzz", document_filters := none, max_results := 5 } rfl⟩

/-- C10: a query of only whitespace normalizes to the empty query and is
treated exactly as one: every document passing the filters qualifies at the
floor score 0.1, independently of its searchable text. -/
theorem spec2proof_C10 (documents : List Document) (req : QueryRequest)
    (h : ∀ c ∈ req.query.data, pySpace c = true) :
    QueryEngine.normQuery req.query = ""
    ∧ QueryEngine.matchesOf documents req =
        (QueryEngine.filterDocuments documents req.document_filters).map
          (fun d => (d, (1:ℚ)/10)) := by
  have hq : QueryEngine.normQuery req.query = "" := by
    unfold QueryEngine.normQuery
    rw [pyStrip_eq_empty _ h]
    rfl
  refine ⟨hq, ?_⟩
  unfold QueryEngine.matchesOf
  rw [hq]
  have hfun : QueryEngine.scoreEntry "" = fun d => some (d, (1:ℚ)/10) :=
    funext scoreEntry_empty
  rw [hfun]
  exact congrFun (List.filterMap_eq_map (fun d => (d, (1:ℚ)/10))) _

/-- C10 witness at the one-blank query over the empty store. -/
theorem spec2proof_C10_witness :
    (∀ c ∈ (" " : String).data, pySpace c = true)
    ∧ (QueryEngine.normQuery " " = ""
       ∧ QueryEngine.matchesOf []
           { query := " ", document_filters := none, max_results := 5 } =
         (QueryEngine.filterDocuments [] none).map
           (fun d => (d, (1:ℚ)/10))) :=
  ⟨by decide, spec2proof_C10 []
    { query := " ", document_filters := none, max_results := 5 } (by decide)⟩

/-- C8, counterexample: the store text consisting of an empty JSON array is
unparseable as the persistence format (a top-level mapping) yet parses as
JSON, so load returns it as is instead of the empty mapping, and the
dictionary accesses of get, register and list all raise. -/
theorem spec2proof_C8_cex :
    loadStore "[]" (.value (.arr [])) = PyValue.arr []
    ∧ loadStore "[]" (.value (.arr [])) ≠ PyValue.obj []
    ∧ pyDictGet (loadStore "[]" (.value (.arr []))) "doc-1" =
        .error .attributeError
    ∧ pyDictSet (loadStore "[]" (.value (.arr []))) "doc-1" .null =
        .error .typeError
    ∧ pyDictValues (loadStore "[]" (.value (.arr []))) =
        .error .attributeError := by
  refine ⟨rfl, fun h => PyValue.noConfusion h, rfl, rfl, rfl⟩

/-- C8, amended: store file content that fails to parse as JSON (or is
blank) is treated as the empty mapping by every registry operation, with no
error: get finds nothing, list sees no values, and the write of register
operates on the empty mapping. -/
theorem spec2proof_C8 (raw : String) (parsed : LoadOutcome) (key : String)
    (v : PyValue)
    (h : parsed = LoadOutcome.decodeError ∨ pyStrip raw = "") :
    loadStore raw parsed = PyValue.obj []
    ∧ pyDictGet (loadStore raw parsed) key = .ok none
    ∧ pyDictValues (loadStore raw parsed) = .ok []
    ∧ pyDictSet (loadStore raw parsed) key v = .ok (.obj [(key, v)]) := by
  have hload : loadStore raw parsed = PyValue.obj [] := by
    unfold loadStore
    rcases h with h | h
    · subst h
      by_cases hs : pyStrip raw = "" <;> simp [hs]
    · simp [h]
  rw [hload]
  exact ⟨rfl, rfl, rfl, rfl⟩

/-- C8 witness at one concrete unparseable content. -/
theorem spec2proof_C8_witness :
    (LoadOutcome.decodeError = LoadOutcome.decodeError
      ∨ pyStrip "not json" = "")
    ∧ (loadStore "not json" .decodeError = PyValue.obj []
       ∧ pyDictGet (loadStore "not json" .decodeError) "doc-1" = .ok none
       ∧ pyDictValues (loadStore "not json" .decodeError) = .ok []
       ∧ pyDictSet (loadStore "not json" .decodeError) "doc-1" .null =
           .ok (.obj [("doc-1", .null)])) :=
  ⟨Or.inl rfl, spec2proof_C8 "not json" .decodeError "doc-1" .null
    (Or.inl rfl)⟩

theorem rawScore_eq_over_length (q : String) (d : Document) :
    QueryEngine.rawScore q d =
      (((pySplit q).filter (fun t => pyIn t (QueryEngine.searchable d))).length : ℚ) /
        ((pySplit q).length : ℚ) := by
  unfold QueryEngine.rawScore
  rcases Nat.eq_zero_or_pos (pySplit q).length with h0 | hpos
  · have hnil : pySplit q = [] := List.length_eq_zero.mp h0
    rw [hnil]
    simp
  · have hmax : max ((pySplit q).length : ℚ) 1 = ((pySplit q).length : ℚ) :=
      max_eq_left (by exact_mod_cast hpos)
    rw [hmax]

theorem scoreEntry_eq_spec (q : String) (d : Document) :
    QueryEngine.scoreEntry q d = specScoreRule q d := by
  by_cases hq : q = ""
  · subst hq
    rw [scoreEntry_empty]
    simp [specScoreRule]
  · unfold QueryEngine.scoreEntry specScoreRule
    simp only [hq, decide_False, Bool.false_or, if_false, ite_false]
    rw [rawScore_eq_over_length]

/-- C2: the scoring stage of answer is exactly the rule the specification
states: an empty normalized query qualifies every filtered document at
score 0.1; a non-empty one scores the fraction of its whitespace tokens
occurring as substrings of the searchable string over the token count,
qualifies a document iff the whole query occurs in the searchable string or
the fraction is positive, reports the fraction clamped to the range 0.05 to
1, and excludes the document otherwise; the token list of a non-empty
normalized query is never empty, so the fraction is well defined. -/
theorem spec2proof_C2 (documents : List Document) (req : QueryRequest)
    (d : Document) :
    QueryEngine.matchesOf documents req =
        (QueryEngine.filterDocuments documents req.document_filters).filterMap
          (specScoreRule (QueryEngine.normQuery req.query))
    ∧ QueryEngine.scoreEntry (QueryEngine.normQuery req.query) d =
        specScoreRule (QueryEngine.normQuery req.query) d
    ∧ (QueryEngine.normQuery req.query ≠ "" →
        pySplit (QueryEngine.normQuery req.query) ≠ []) := by
  refine ⟨?_, scoreEntry_eq_spec _ d, normQuery_tokens_ne_nil req.query⟩
  unfold QueryEngine.matchesOf
  rw [funext (scoreEntry_eq_spec (QueryEngine.normQuery req.query))]

/-- C4: list_alerts emits, per document, exactly one missing reporting
period alert of severity medium when the reporting period is absent and
exactly one unverified language alert of severity low when the lowercased
language is outside the allow-set, hence exactly two alerts for a document
violating both; every alert carries status new, the evaluation timestamp,
no assignee and an alert id derived from the document id and the rule name;
the alert list concatenates the per-document alerts and the total is its
length. -/
theorem spec2proof_C4 (now : String) (documents : List Document)
    (d : Document) :
    (ComplianceService.list_alerts now documents).total =
        (ComplianceService.list_alerts now documents).alerts.length
    ∧ (ComplianceService.list_alerts now documents).alerts =
        documents.flatMap (ComplianceService.alertsFor now)
    ∧ ((ComplianceService.alertsFor now d).filter
          (fun a => a.rule_id == "missing_reporting_period")).length =
        (if d.reporting_period = none then 1 else 0)
    ∧ ((ComplianceService.alertsFor now d).filter
          (fun a => a.rule_id == "unverified_language")).length =
        (if pyLower d.language ∈ ComplianceService.verifiedLanguages
         then 0 else 1)
    ∧ (d.reporting_period = none →
        pyLower d.language ∉ ComplianceService.verifiedLanguages →
        (ComplianceService.alertsFor now d).length = 2)
    ∧ (∀ a ∈ ComplianceService.alertsFor now d,
        a.status = "new" ∧ a.assignee = none ∧ a.created_at = now
        ∧ (a.rule_id = "missing_reporting_period" ∧ a.severity = "medium"
             ∧ a.alert_id = pyStrOpt d.document_id ++ "-missing-reporting-period"
           ∨ a.rule_id = "unverified_language" ∧ a.severity = "low"
             ∧ a.alert_id = pyStrOpt d.document_id ++ "-unverified-language")) := by
  refine ⟨rfl, rfl, ?_, ?_, ?_, ?_⟩ <;>
    unfold ComplianceService.alertsFor <;>
    by_cases hrp : d.reporting_period = none <;>
    by_cases hlang : pyLower d.language ∈ ComplianceService.verifiedLanguages <;>
    simp [hrp, hlang]

theorem ranked_perm (documents : List Document) (req : QueryRequest) :
    (QueryEngine.ranked documents req).Perm
      (QueryEngine.matchesOf documents req) :=
  List.mergeSort_perm _ _

theorem ranked_sorted (documents : List Document) (req : QueryRequest) :
    List.Pairwise (fun a b : Document × ℚ => b.2 ≤ a.2)
      (QueryEngine.ranked documents req) := by
  have h := @List.sorted_mergeSort (Document × ℚ)
    (fun a b => decide (b.2 ≤ a.2))
    (fun a b c hab hbc => by
      simp only [decide_eq_true_eq] at hab hbc ⊢
      exact le_trans hbc hab)
    (fun a b => by
      simp only [Bool.or_eq_true, decide_eq_true_eq]
      exact le_total b.2 a.2)
    (QueryEngine.matchesOf documents req)
  exact h.imp (fun hab => by simpa using hab)

/-- C6: the citations are the qualifying matches sorted by score in
descending order and truncated to at most max_results entries, and with
max_results one and at least one qualifying document exactly one citation
is returned, built from a match of maximal score. -/
theorem spec2proof_C6 (documents : List Document) (req : QueryRequest) :
    (∃ sorted : List (Document × ℚ),
        sorted.Perm (QueryEngine.matchesOf documents req)
        ∧ List.Pairwise (fun a b : Document × ℚ => b.2 ≤ a.2) sorted
        ∧ (QueryEngine.answer documents req).citations =
            (sorted.take req.max_results).map QueryEngine.snippetOf)
    ∧ (QueryEngine.answer documents req).citations.length ≤ req.max_results
    ∧ (req.max_results = 1 → QueryEngine.matchesOf documents req ≠ [] →
        ∃ m ∈ QueryEngine.matchesOf documents req,
          (QueryEngine.answer documents req).citations =
              [QueryEngine.snippetOf m]
          ∧ ∀ n ∈ QueryEngine.matchesOf documents req, n.2 ≤ m.2) := by
  refine ⟨⟨QueryEngine.ranked documents req, ranked_perm documents req,
      ranked_sorted documents req, answer_citations documents req⟩, ?_, ?_⟩
  · rw [answer_citations, List.length_map, List.length_take]
    exact min_le_left _ _
  · intro h1 hne
    have hrne : QueryEngine.ranked documents req ≠ [] := by
      intro hcontra
      exact hne (List.Perm.eq_nil ((ranked_perm documents req).symm.trans
        (hcontra ▸ List.Perm.refl _)))
    obtain ⟨m, t, hmt⟩ := List.exists_cons_of_ne_nil hrne
    have hsorted := ranked_sorted documents req
    rw [hmt, List.pairwise_cons] at hsorted
    refine ⟨m, ?_, ?_, ?_⟩
    · exact (ranked_perm documents req).mem_iff.mp (by rw [hmt]; simp)
    · rw [answer_citations, h1, hmt]
      rfl
    · intro n hn
      have hn2 : n ∈ QueryEngine.ranked documents req :=
        (ranked_perm documents req).mem_iff.mpr hn
      rw [hmt] at hn2
      rcases List.mem_cons.mp hn2 with h | h
      · rw [h]
      · exact hsorted.1 n h

/-- C9: every citation of every response carries a score between 0.05 and
1; in particular no citation ever scores 0, also when the token-overlap
fraction is 0 and the document qualified through whole-string containment
or an empty query. -/
theorem spec2proof_C9 (documents : List Document) (req : QueryRequest) :
    ((QueryEngine.answer documents req).citations.all
      (fun c => decide ((1:ℚ)/20 ≤ c.score) && decide (c.score ≤ 1))) = true := by
  rw [List.all_eq_true]
  intro c hc
  rw [answer_citations] at hc
  obtain ⟨m, hm, rfl⟩ := List.mem_map.mp hc
  have hmr : m ∈ QueryEngine.ranked documents req :=
    List.mem_of_mem_take hm
  have hmm : m ∈ QueryEngine.matchesOf documents req :=
    (ranked_perm documents req).mem_iff.mp hmr
  obtain ⟨d, _, hsd⟩ := List.mem_filterMap.mp hmm
  have hb := scoreEntry_bounds _ d m hsd
  have h1 := round2_mono hb.1
  have h2 := round2_mono hb.2
  rw [round2_low] at h1
  rw [round2_one] at h2
  simp only [QueryEngine.snippetOf, Bool.and_eq_true, decide_eq_true_eq]
  exact ⟨h1, h2⟩
